import Mathlib

/-!
Shallow embedding of the kroger_scraper repository (src/main.py), together
with proofs about the claims of its specification.

The embedding follows `src/main.py` definition by definition:
Python dictionaries parsed from JSON bodies become the `PyVal` type with
Python truthiness; the postal-code input rows and the output-ledger rows
become the structures `PostalCodeRecord` and `OutputRecord`; each method of
`KrogerScraper` that the claims mention becomes a Lean function of the same
name.  The fetch layer is modelled by a stream of per-attempt outcomes
(`FetchOutcome`), one outcome per HTTP request the source would issue.
-/

/-- A Python value as it appears in a parsed JSON payload.  `none` is
Python `None`, `dict` keeps the insertion-ordered key/value pairs. -/
inductive PyVal where
  | none : PyVal
  | bool (b : Bool) : PyVal
  | str (s : String) : PyVal
  | int (n : Int) : PyVal
  | list (xs : List PyVal) : PyVal
  | dict (entries : List (String × PyVal)) : PyVal

/-- Python truthiness of a value (`if kroger_postal_data:` etc.). -/
def PyVal.truthy : PyVal → Bool
  | .none => false
  | .bool b => b
  | .str s => !(s == "")
  | .int n => !(n == 0)
  | .list xs => !xs.isEmpty
  | .dict es => !es.isEmpty

/-- Dictionary lookup: models both `k in d` (presence) and `d[k]`.
Returns `Option.none` when the value is not a dict or lacks the key. -/
def PyVal.get? : PyVal → String → Option PyVal
  | .dict es, k => (es.find? (fun e => e.1 == k)).map (fun e => e.2)
  | _, _ => Option.none

/-- Extract a Python string, if the value is one. -/
def PyVal.asStr : PyVal → Option String
  | .str s => some s
  | _ => Option.none

/-- The string elements of a Python list (location-id lists in payloads
hold strings; non-string entries would never match a store number). -/
def PyVal.toStrList : PyVal → List String
  | .list xs => xs.filterMap PyVal.asStr
  | _ => []

/-- One row of the postal-code input table (`USZipCodesXLS.csv`):
columns `ID`, `NAME`, `RG_NAME`, `RG_ABBREV` used by `main.py`. -/
structure PostalCodeRecord where
  ID : Nat
  NAME : String
  RG_NAME : String
  RG_ABBREV : String
deriving DecidableEq, Repr

/-- One row of the output ledger, fields in the order of
`output_columns` in `main.py` (the order of `output_data.values()`). -/
structure OutputRecord where
  Ecommerce : String
  CityName : String
  StateAbbrev : String
  ZipCode : Nat
  Delivery : String
  DeliveryGrocery : List String
  DeliveryRestaurants : List String
  DeliveryAll : List String
  Pickup : String
  PickupGrocery : List String
  PickupRestaurants : List String
  PickupAll : List String
deriving DecidableEq, Repr

/-- `max_retries = 3` in `main.py`. -/
def max_retries : Nat := 3

/-- `state_list` in `main.py`: the full list of state names used when no
state filter is given. -/
def state_list : List String :=
  ["Alabama", "Alaska", "Arizona", "Arkansas", "California", "Colorado", "Connecticut",
   "Delaware", "District of Columbia", "Florida", "Georgia", "Hawaii", "Idaho", "Illinois",
   "Indiana", "Iowa", "Kansas", "Kentucky", "Louisiana", "Maine", "Maryland", "Massachusetts",
   "Michigan", "Minnesota", "Mississippi", "Missouri", "Montana", "Nebraska", "Nevada",
   "New Hampshire", "New Jersey", "New Mexico", "New York", "North Carolina", "North Dakota",
   "Ohio", "Oklahoma", "Oregon", "Pennsylvania", "Rhode Island", "South Carolina",
   "South Dakota", "Tennessee", "Texas", "Utah", "Vermont", "Virginia", "Washington",
   "West Virginia", "Wisconsin", "Wyoming"]

/-- `store_df['StoreNumber'].str.replace('-', '')`: strip every hyphen. -/
def stripHyphens (s : String) : String :=
  String.mk (s.data.filter (fun c => decide (c ≠ '-')))

/-- The store-list lookup inside the loop of `get_store_brands`:
the first row whose hyphen-stripped `StoreNumber` equals `store_id`
yields its `ChainName`; an `IndexError` (no row) yields `Option.none`
and the id is skipped. The index is the (`StoreNumber`, `ChainName`)
table of `Kroger-Store-List.csv`. -/
def resolve (index : List (String × String)) (store_id : String) : Option String :=
  (index.find? (fun e => stripHyphens e.1 == store_id)).map (fun e => e.2)

/-- The `for store_id in store_ids` loop of `get_store_brands`:
resolve each id, skip unresolved ids, append a brand only when it is
not already collected (`if brand not in store_brands`). -/
def brandsLoop (index : List (String × String)) (acc : List String) :
    List String → List String
  | [] => acc
  | store_id :: rest =>
    match resolve index store_id with
    | Option.none => brandsLoop index acc rest
    | some b => if b ∈ acc then brandsLoop index acc rest
                else brandsLoop index (acc ++ [b]) rest

/-- Delivery-mode store ids: `modality_options['DELIVERY']['fulfillment']`
when the key chain is present (the source indexes `DELIVERY` only after
the Delivery flag resolved to Yes, so the key is present at every call). -/
def delivery_store_ids (mo : PyVal) : List String :=
  match mo.get? "DELIVERY" with
  | some d =>
    match d.get? "fulfillment" with
    | some f => f.toStrList
    | Option.none => []
  | Option.none => []

/-- Pickup-mode store ids: `[store['locationId'] for store in
modality_options['storeDetails']]` when `storeDetails` is present. -/
def pickup_store_ids (mo : PyVal) : List String :=
  match mo.get? "storeDetails" with
  | some (.list stores) =>
    stores.filterMap (fun st => (st.get? "locationId").bind PyVal.asStr)
  | some _ => []
  | Option.none => []

/-- `KrogerScraper.get_store_brands(modality_options, mode)`. -/
def get_store_brands (index : List (String × String)) (mo : PyVal)
    (mode : String) : List String :=
  let store_ids : List String :=
    if mode = "Delivery" then delivery_store_ids mo
    else if mode = "Pickup" then pickup_store_ids mo
    else []
  brandsLoop index [] store_ids

/-- Truthiness of an optional value: `key in d and d[key]` in Python. -/
def optTruthy (o : Option PyVal) : Bool :=
  match o with
  | some v => v.truthy
  | Option.none => false

/-- `KrogerScraper.check_modality_options`: the pair
(`Delivery` flag, `Pickup` flag), each Yes iff the key is present
and truthy. -/
def check_modality_options (mo : PyVal) : String × String :=
  ( if optTruthy (mo.get? "DELIVERY") then "Yes" else "No",
    if optTruthy (mo.get? "PICKUP") then "Yes" else "No" )

/-- The nested key test of `transform_data`:
`'data' in payload` and `'modalityOptions' in payload['data']`. -/
def modality_options_of (payload : PyVal) : Option PyVal :=
  (payload.get? "data").bind (fun d => d.get? "modalityOptions")

/-- `KrogerScraper.transform_data(kroger_postal_data, postal_code_details)`:
build the default record, overwrite the two flags from
`check_modality_options`, then fill the grocery/all brand lists of each
modality whose flag is Yes. -/
def transform_data (index : List (String × String)) (payload : PyVal)
    (details : PostalCodeRecord) : OutputRecord :=
  let base : OutputRecord :=
    { Ecommerce := "Kroger", CityName := details.NAME,
      StateAbbrev := details.RG_ABBREV, ZipCode := details.ID,
      Delivery := "No", DeliveryGrocery := [], DeliveryRestaurants := [],
      DeliveryAll := [], Pickup := "No", PickupGrocery := [],
      PickupRestaurants := [], PickupAll := [] }
  match modality_options_of payload with
  | Option.none => base
  | some mo =>
    let flags := check_modality_options mo
    let r1 : OutputRecord := { base with Delivery := flags.1, Pickup := flags.2 }
    let r2 : OutputRecord :=
      if r1.Delivery = "Yes" then
        let delivery_store_brands := get_store_brands index mo "Delivery"
        { r1 with DeliveryGrocery := delivery_store_brands,
                  DeliveryAll := delivery_store_brands }
      else r1
    if r2.Pickup = "Yes" then
      let pickup_store_brands := get_store_brands index mo "Pickup"
      { r2 with PickupGrocery := pickup_store_brands,
                PickupAll := pickup_store_brands }
    else r2

/-- The outcome of one HTTP attempt in `download_data`, as the source
distinguishes them: a 2xx response with a JSON body, a non-2xx status
(`raise_for_status` raised `HTTPError`; `status` is the HTTP status
code, 400 to 599), a network failure or a timeout (both raise a
`RequestException`), or a 2xx response whose body is not valid JSON. -/
inductive FetchOutcome where
  | success (body : PyVal) : FetchOutcome
  | httpError (status : Nat) : FetchOutcome
  | networkFailure : FetchOutcome
  | timeout : FetchOutcome
  | malformedBody : FetchOutcome

/-- The payload `{'errors': None}` that `download_data` substitutes for a
4xx client error. -/
def errorsPayload : PyVal := PyVal.dict [("errors", PyVal.none)]

/-- `requests` raises `HTTPError` with a `Client Error` message exactly
for status codes 400 to 499; `download_data` tests `'Client Error' in
str(e)`. -/
def isClientError (status : Nat) : Bool :=
  decide (400 ≤ status ∧ status < 500)

/-- The recursion of `KrogerScraper.download_data(postal_code, retries)`.
`outcomes i` is the outcome of the attempt made with `retries = i`;
`budget = max_retries - retries` is the number of retries still allowed,
so the guard `retries < max_retries` of the source is `budget > 0`
(the recursion is on `budget`, which the source encodes as the distance
from `retries` to `max_retries`).  A client error yields
`{'errors': None}`; any other `HTTPError` is retried while budget
remains; a `RequestException` (network failure or timeout) and a
malformed body fall through to `return None` without retrying. -/
def download_data_go (outcomes : Nat → FetchOutcome) :
    Nat → Nat → Option PyVal
  | retries, 0 =>
    match outcomes retries with
    | .success body => some body
    | .httpError status =>
      if isClientError status then some errorsPayload else Option.none
    | .networkFailure => Option.none
    | .timeout => Option.none
    | .malformedBody => Option.none
  | retries, b + 1 =>
    match outcomes retries with
    | .success body => some body
    | .httpError status =>
      if isClientError status then some errorsPayload
      else download_data_go outcomes (retries + 1) b
    | .networkFailure => Option.none
    | .timeout => Option.none
    | .malformedBody => Option.none

/-- `KrogerScraper.download_data(postal_code)` with the default
`retries = 0`, hence a full retry budget of `max_retries`. -/
def download_data (outcomes : Nat → FetchOutcome) : Option PyVal :=
  download_data_go outcomes 0 max_retries

/-- `KrogerScraper.process_postal_code(postal_code_details)` acting on the
ledger: download, and append the transformed row exactly when the result
is truthy (`if kroger_postal_data:`).  The formatted postal code only
feeds the request itself, which the outcome stream models. -/
def process_postal_code (index : List (String × String))
    (details : PostalCodeRecord) (outcomes : Nat → FetchOutcome)
    (ledger : List OutputRecord) : List OutputRecord :=
  let _postal_code := details.ID
  match download_data outcomes with
  | some d =>
    if d.truthy then ledger ++ [transform_data index d details] else ledger
  | Option.none => ledger

/-- The default applied to `state_filter`:
`if state_filter is None or not state_filter: state_filter = state_list`. -/
def active_state_filter : Option (List String) → List String
  | Option.none => state_list
  | some [] => state_list
  | some (s :: rest) => s :: rest

/-- `KrogerScraper.filter_postal_codes(state_filter)`: keep the input rows
whose `ID` is not among the `ZipCode` values of the output ledger and
whose `RG_NAME` is in the active state filter. -/
def filter_postal_codes (postal_code_data : List PostalCodeRecord)
    (ledger : List OutputRecord) (state_filter : Option (List String)) :
    List PostalCodeRecord :=
  let existing_postal_codes := ledger.map (fun row => row.ZipCode)
  postal_code_data.filter (fun r =>
    !(existing_postal_codes.contains r.ID)
      && (active_state_filter state_filter).contains r.RG_NAME)

/-- `KrogerScraper.postal_code_formatter(code)`: stringify, and prepend a
single zero exactly when the string has length 4. -/
def postal_code_formatter (code : Nat) : String :=
  let postal_code := toString code
  if postal_code.length = 4 then "0" ++ toString code else postal_code

/-- The set of characters of a string (Python `set(s)`). -/
def charSet (s : String) : Finset Char := s.toList.toFinset

/-- Modelled from the spec: the BrandResolver fuzzy-fallback similarity is
absent from src/ (no fuzzy matching code exists there); the spec defines
it as Jaccard similarity over the character sets of the two strings,
the cardinality of the intersection divided by the cardinality of the
union. -/
def jaccard (s1 s2 : String) : ℚ :=
  ((charSet s1 ∩ charSet s2).card : ℚ) / ((charSet s1 ∪ charSet s2).card : ℚ)

/-- First-occurrence deduplication: keep the head, drop every later copy
of it, recurse.  This is the reference characterisation of the
order-preserving set built by `brandsLoop`. -/
def dedupFirst {α : Type} [DecidableEq α] : List α → List α
  | [] => []
  | b :: rest => b :: dedupFirst (rest.filter (fun x => decide (x ≠ b)))
termination_by l => l.length
decreasing_by
  simp only [List.length_cons]
  exact Nat.lt_succ_of_le (List.length_filter_le _ _)

/-- Whether an attempt outcome is an HTTP 5xx server error. -/
def is5xx : FetchOutcome → Bool
  | .httpError status => decide (500 ≤ status ∧ status < 600)
  | _ => false

/-- Whether an attempt outcome abandons the task at once in
`download_data` (network failure, timeout, malformed body). -/
def isImmediateAbandon : FetchOutcome → Bool
  | .networkFailure => true
  | .timeout => true
  | .malformedBody => true
  | _ => false

/-- The Delivery condition of `check_modality_options` read off the whole
payload: a `data.modalityOptions` object is present and its `DELIVERY`
entry is present and truthy. -/
def deliveryTruthy (payload : PyVal) : Bool :=
  match modality_options_of payload with
  | some mo => optTruthy (mo.get? "DELIVERY")
  | Option.none => false

/-- The Pickup condition of `check_modality_options` read off the whole
payload. -/
def pickupTruthy (payload : PyVal) : Bool :=
  match modality_options_of payload with
  | some mo => optTruthy (mo.get? "PICKUP")
  | Option.none => false

lemma dedupFirst_nil {α : Type} [DecidableEq α] : dedupFirst ([] : List α) = [] := by
  rw [dedupFirst]

lemma dedupFirst_cons {α : Type} [DecidableEq α] (b : α) (rest : List α) :
    dedupFirst (b :: rest) = b :: dedupFirst (rest.filter (fun x => decide (x ≠ b))) := by
  rw [dedupFirst]

lemma mem_dedupFirst {α : Type} [DecidableEq α] (a : α) (l : List α) :
    a ∈ dedupFirst l ↔ a ∈ l := by
  induction l using dedupFirst.induct with
  | case1 => simp [dedupFirst_nil]
  | case2 b rest ih =>
    rw [dedupFirst_cons, List.mem_cons, ih, List.mem_filter]
    by_cases hab : a = b <;> simp [hab]

lemma nodup_dedupFirst {α : Type} [DecidableEq α] (l : List α) :
    (dedupFirst l).Nodup := by
  induction l using dedupFirst.induct with
  | case1 => simp [dedupFirst_nil]
  | case2 b rest ih =>
    rw [dedupFirst_cons]
    refine List.nodup_cons.mpr ⟨?_, ih⟩
    intro hmem
    rw [mem_dedupFirst] at hmem
    simp [List.mem_filter] at hmem

lemma brandsLoop_eq (index : List (String × String)) :
    ∀ (ids : List String) (acc : List String),
      brandsLoop index acc ids =
        acc ++ dedupFirst (((ids.filterMap (resolve index))).filter
          (fun x => decide (¬ x ∈ acc))) := by
  intro ids
  induction ids with
  | nil => intro acc; simp [brandsLoop, dedupFirst_nil]
  | cons store_id rest ih =>
    intro acc
    cases hres : resolve index store_id with
    | none =>
      simp only [brandsLoop, hres, List.filterMap_cons]
      exact ih acc
    | some b =>
      by_cases hmem : b ∈ acc
      · simp only [brandsLoop, hres, List.filterMap_cons]
        rw [if_pos hmem, ih acc]
        have hdec : (decide (¬ b ∈ acc)) = false := by simp [hmem]
        simp only [List.filter_cons, hdec]
        simp
      · simp only [brandsLoop, hres, List.filterMap_cons]
        rw [if_neg hmem, ih (acc ++ [b])]
        have hdec : (decide (¬ b ∈ acc)) = true := by simp [hmem]
        simp only [List.filter_cons, hdec, if_true]
        rw [dedupFirst_cons, List.append_assoc]
        simp only [List.singleton_append]
        congr 2
        rw [List.filter_filter]
        congr 1
        apply List.filter_congr
        intro x _
        by_cases hxb : x = b <;> by_cases hxa : x ∈ acc <;>
          simp [hxb, hxa, List.mem_append]

lemma get_store_brands_pickup (index : List (String × String)) (mo : PyVal) :
    get_store_brands index mo "Pickup" =
      dedupFirst ((pickup_store_ids mo).filterMap (resolve index)) := by
  unfold get_store_brands
  rw [if_neg (by decide), if_pos rfl, brandsLoop_eq]
  simp

lemma get_store_brands_delivery (index : List (String × String)) (mo : PyVal) :
    get_store_brands index mo "Delivery" =
      dedupFirst ((delivery_store_ids mo).filterMap (resolve index)) := by
  unfold get_store_brands
  rw [if_pos rfl, brandsLoop_eq]
  simp

/-- The brand list `transform_data` puts into the two delivery columns
when the Delivery flag is Yes. -/
def delivery_brands (index : List (String × String)) (payload : PyVal) :
    List String :=
  match modality_options_of payload with
  | some mo => get_store_brands index mo "Delivery"
  | Option.none => []

/-- The brand list `transform_data` puts into the two pickup columns when
the Pickup flag is Yes. -/
def pickup_brands (index : List (String × String)) (payload : PyVal) :
    List String :=
  match modality_options_of payload with
  | some mo => get_store_brands index mo "Pickup"
  | Option.none => []

/-- Closed form of `transform_data`: every field expressed through the
flag conditions `deliveryTruthy` / `pickupTruthy`. -/
lemma transform_data_eq (index : List (String × String)) (payload : PyVal)
    (details : PostalCodeRecord) :
    transform_data index payload details =
      { Ecommerce := "Kroger", CityName := details.NAME,
        StateAbbrev := details.RG_ABBREV, ZipCode := details.ID,
        Delivery := if deliveryTruthy payload then "Yes" else "No",
        DeliveryGrocery :=
          if deliveryTruthy payload then delivery_brands index payload else [],
        DeliveryRestaurants := [],
        DeliveryAll :=
          if deliveryTruthy payload then delivery_brands index payload else [],
        Pickup := if pickupTruthy payload then "Yes" else "No",
        PickupGrocery :=
          if pickupTruthy payload then pickup_brands index payload else [],
        PickupRestaurants := [],
        PickupAll :=
          if pickupTruthy payload then pickup_brands index payload else [] } := by
  unfold transform_data deliveryTruthy pickupTruthy delivery_brands pickup_brands
  cases hmo : modality_options_of payload with
  | none => simp
  | some mo =>
    simp only [check_modality_options]
    by_cases hd : optTruthy (mo.get? "DELIVERY") <;>
      by_cases hp : optTruthy (mo.get? "PICKUP") <;>
        simp [hd, hp]

lemma download_go_zero_eq (outcomes : Nat → FetchOutcome) (retries : Nat) :
    download_data_go outcomes retries 0 =
      match outcomes retries with
      | .success body => some body
      | .httpError status =>
        if isClientError status then some errorsPayload else Option.none
      | .networkFailure => Option.none
      | .timeout => Option.none
      | .malformedBody => Option.none := rfl

lemma download_go_succ_eq (outcomes : Nat → FetchOutcome) (retries b : Nat) :
    download_data_go outcomes retries (b + 1) =
      match outcomes retries with
      | .success body => some body
      | .httpError status =>
        if isClientError status then some errorsPayload
        else download_data_go outcomes (retries + 1) b
      | .networkFailure => Option.none
      | .timeout => Option.none
      | .malformedBody => Option.none := rfl

lemma download_go_success (outcomes : Nat → FetchOutcome) (retries budget : Nat)
    (body : PyVal) (h : outcomes retries = .success body) :
    download_data_go outcomes retries budget = some body := by
  cases budget with
  | zero => rw [download_go_zero_eq, h]
  | succ b => rw [download_go_succ_eq, h]

lemma download_go_client (outcomes : Nat → FetchOutcome) (retries budget s : Nat)
    (h : outcomes retries = .httpError s) (hc : isClientError s = true) :
    download_data_go outcomes retries budget = some errorsPayload := by
  cases budget with
  | zero => rw [download_go_zero_eq, h]; simp [hc]
  | succ b => rw [download_go_succ_eq, h]; simp [hc]

lemma download_go_retry (outcomes : Nat → FetchOutcome) (retries b s : Nat)
    (h : outcomes retries = .httpError s) (hc : isClientError s = false) :
    download_data_go outcomes retries (b + 1) =
      download_data_go outcomes (retries + 1) b := by
  rw [download_go_succ_eq, h]
  simp [hc]

lemma download_go_stop (outcomes : Nat → FetchOutcome) (retries s : Nat)
    (h : outcomes retries = .httpError s) (hc : isClientError s = false) :
    download_data_go outcomes retries 0 = Option.none := by
  rw [download_go_zero_eq, h]
  simp [hc]

lemma download_go_abandon (outcomes : Nat → FetchOutcome) (retries budget : Nat)
    (h : isImmediateAbandon (outcomes retries) = true) :
    download_data_go outcomes retries budget = Option.none := by
  cases budget with
  | zero =>
    rw [download_go_zero_eq]
    cases ho : outcomes retries <;> simp [isImmediateAbandon, ho] at h ⊢
  | succ b =>
    rw [download_go_succ_eq]
    cases ho : outcomes retries <;> simp [isImmediateAbandon, ho] at h ⊢

lemma download_go_shape (outcomes : Nat → FetchOutcome) :
    ∀ (budget retries : Nat) (d : PyVal),
      download_data_go outcomes retries budget = some d →
      d = errorsPayload ∨ ∃ i, outcomes i = .success d := by
  intro budget
  induction budget with
  | zero =>
    intro retries d h
    cases ho : outcomes retries with
    | success body =>
      rw [download_go_success outcomes retries 0 body ho] at h
      exact Or.inr ⟨retries, by rw [ho, Option.some.inj h]⟩
    | httpError s =>
      by_cases hc : isClientError s = true
      · rw [download_go_client outcomes retries 0 s ho hc] at h
        exact Or.inl (Option.some.inj h).symm
      · rw [download_go_stop outcomes retries s ho (by simpa using hc)] at h
        exact absurd h (by simp)
    | networkFailure =>
      rw [download_go_abandon outcomes retries 0 (by rw [ho]; rfl)] at h
      exact absurd h (by simp)
    | timeout =>
      rw [download_go_abandon outcomes retries 0 (by rw [ho]; rfl)] at h
      exact absurd h (by simp)
    | malformedBody =>
      rw [download_go_abandon outcomes retries 0 (by rw [ho]; rfl)] at h
      exact absurd h (by simp)
  | succ b ih =>
    intro retries d h
    cases ho : outcomes retries with
    | success body =>
      rw [download_go_success outcomes retries (b + 1) body ho] at h
      exact Or.inr ⟨retries, by rw [ho, Option.some.inj h]⟩
    | httpError s =>
      by_cases hc : isClientError s = true
      · rw [download_go_client outcomes retries (b + 1) s ho hc] at h
        exact Or.inl (Option.some.inj h).symm
      · rw [download_go_retry outcomes retries b s ho (by simpa using hc)] at h
        exact ih (retries + 1) d h
    | networkFailure =>
      rw [download_go_abandon outcomes retries (b + 1) (by rw [ho]; rfl)] at h
      exact absurd h (by simp)
    | timeout =>
      rw [download_go_abandon outcomes retries (b + 1) (by rw [ho]; rfl)] at h
      exact absurd h (by simp)
    | malformedBody =>
      rw [download_go_abandon outcomes retries (b + 1) (by rw [ho]; rfl)] at h
      exact absurd h (by simp)

lemma process_of_download_none (index : List (String × String))
    (details : PostalCodeRecord) (outcomes : Nat → FetchOutcome)
    (ledger : List OutputRecord) (h : download_data outcomes = Option.none) :
    process_postal_code index details outcomes ledger = ledger := by
  unfold process_postal_code
  rw [h]

lemma process_of_download_truthy (index : List (String × String))
    (details : PostalCodeRecord) (outcomes : Nat → FetchOutcome)
    (ledger : List OutputRecord) (d : PyVal)
    (h : download_data outcomes = some d) (ht : d.truthy = true) :
    process_postal_code index details outcomes ledger =
      ledger ++ [transform_data index d details] := by
  unfold process_postal_code
  rw [h]
  simp [ht]

/-- The input row of the `test()` scenario: postal code 36804, Opelika AL. -/
def opelikaDetails : PostalCodeRecord :=
  { ID := 36804, NAME := "Opelika", RG_NAME := "Alabama", RG_ABBREV := "AL" }

/-- The BrandIndex of the C5 scenario: `01234` maps to `Kroger`. -/
def c5Index : List (String × String) := [("01234", "Kroger")]

/-- The C5 scenario payload: `PICKUP` true, one store with
`locationId` `01234` and banner `Kroger`. -/
def c5Payload : PyVal :=
  PyVal.dict [("data", PyVal.dict [("modalityOptions", PyVal.dict
    [("PICKUP", PyVal.bool true),
     ("storeDetails", PyVal.list [PyVal.dict
       [("locationId", PyVal.str "01234"),
        ("banner", PyVal.str "Kroger")]])])])]

/-- A successful payload whose `PICKUP` is truthy but that carries no
`storeDetails` at all. -/
def pickupOnlyPayload : PyVal :=
  PyVal.dict [("data", PyVal.dict [("modalityOptions", PyVal.dict
    [("PICKUP", PyVal.bool true)])])]

/-- An outcome stream: HTTP 503 on the first three attempts, then a
success. -/
def threeServerErrorsThenSuccess : Nat → FetchOutcome := fun i =>
  if i < 3 then FetchOutcome.httpError 503
  else FetchOutcome.success pickupOnlyPayload

lemma is5xx_elim {f : FetchOutcome} (h : is5xx f = true) :
    ∃ s, f = FetchOutcome.httpError s ∧ isClientError s = false := by
  cases f with
  | success body => simp [is5xx] at h
  | httpError s =>
    refine ⟨s, rfl, ?_⟩
    simp [is5xx] at h
    simp [isClientError]
    omega
  | networkFailure => simp [is5xx] at h
  | timeout => simp [is5xx] at h
  | malformedBody => simp [is5xx] at h

/-- C1 counterexample: with HTTP 503 on three consecutive attempts the
retry budget is not yet exhausted: a fourth attempt is made, here it
succeeds, `download_data` returns its payload and a row IS appended,
contradicting the claim that three consecutive 503 outcomes exhaust the
budget and leave no row. -/
theorem claim_C1_counterexample :
    threeServerErrorsThenSuccess 0 = FetchOutcome.httpError 503 ∧
    threeServerErrorsThenSuccess 1 = FetchOutcome.httpError 503 ∧
    threeServerErrorsThenSuccess 2 = FetchOutcome.httpError 503 ∧
    download_data threeServerErrorsThenSuccess = some pickupOnlyPayload ∧
    process_postal_code c5Index opelikaDetails threeServerErrorsThenSuccess [] =
      [transform_data c5Index pickupOnlyPayload opelikaDetails] :=
  ⟨rfl, rfl, rfl, rfl, rfl⟩

/-- C1 (amended): only HTTP 5xx outcomes are retried, with a budget of
`max_retries = 3` retries after the initial attempt, so four consecutive
5xx outcomes exhaust the budget: `download_data` returns the no-data
value and no row is appended; a network failure, timeout or malformed
body on the first attempt abandons the task at once, also with no row. -/
theorem claim_C1 (outcomes : Nat → FetchOutcome)
    (index : List (String × String)) (details : PostalCodeRecord)
    (ledger : List OutputRecord) :
    ((∀ i, i ≤ max_retries → is5xx (outcomes i) = true) →
      download_data outcomes = Option.none ∧
      process_postal_code index details outcomes ledger = ledger) ∧
    (isImmediateAbandon (outcomes 0) = true →
      download_data outcomes = Option.none ∧
      process_postal_code index details outcomes ledger = ledger) := by
  constructor
  · intro h
    obtain ⟨s0, e0, c0⟩ := is5xx_elim (h 0 (by simp [max_retries]))
    obtain ⟨s1, e1, c1⟩ := is5xx_elim (h 1 (by simp [max_retries]))
    obtain ⟨s2, e2, c2⟩ := is5xx_elim (h 2 (by simp [max_retries]))
    obtain ⟨s3, e3, c3⟩ := is5xx_elim (h 3 (by simp [max_retries]))
    have key : download_data outcomes = Option.none := by
      calc download_data outcomes
          = download_data_go outcomes 0 3 := rfl
        _ = download_data_go outcomes 1 2 := download_go_retry outcomes 0 2 s0 e0 c0
        _ = download_data_go outcomes 2 1 := download_go_retry outcomes 1 1 s1 e1 c1
        _ = download_data_go outcomes 3 0 := download_go_retry outcomes 2 0 s2 e2 c2
        _ = Option.none := download_go_stop outcomes 3 s3 e3 c3
    exact ⟨key, process_of_download_none index details outcomes ledger key⟩
  · intro h
    have key : download_data outcomes = Option.none :=
      download_go_abandon outcomes 0 max_retries h
    exact ⟨key, process_of_download_none index details outcomes ledger key⟩

theorem claim_C1_witness :
    download_data (fun _ => FetchOutcome.httpError 503) = Option.none ∧
    process_postal_code [] opelikaDetails (fun _ => FetchOutcome.httpError 503) [] = [] :=
  (claim_C1 (fun _ => FetchOutcome.httpError 503) [] opelikaDetails []).1
    (fun _ _ => rfl)

/-- A ledger row recording postal code 36804 (used to exercise the
dedup filter). -/
def row36804 : OutputRecord :=
  { Ecommerce := "Kroger", CityName := "Opelika", StateAbbrev := "AL",
    ZipCode := 36804, Delivery := "No", DeliveryGrocery := [],
    DeliveryRestaurants := [], DeliveryAll := [], Pickup := "No",
    PickupGrocery := [], PickupRestaurants := [], PickupAll := [] }

/-- C2: `filter_postal_codes` keeps exactly the input records whose `ID`
is not among the ledger `ZipCode` values and whose `RG_NAME` is in the
active state filter; the active filter defaults to the full state list;
consequently an already-recorded postal code is never scheduled again. -/
theorem claim_C2 (postal_code_data : List PostalCodeRecord)
    (ledger : List OutputRecord) (state_filter : Option (List String))
    (r : PostalCodeRecord) :
    (r ∈ filter_postal_codes postal_code_data ledger state_filter ↔
      r ∈ postal_code_data ∧
        r.ID ∉ ledger.map (fun row => row.ZipCode) ∧
        r.RG_NAME ∈ active_state_filter state_filter) ∧
    active_state_filter Option.none = state_list ∧
    (r.ID ∈ ledger.map (fun row => row.ZipCode) →
      r ∉ filter_postal_codes postal_code_data ledger state_filter) := by
  have hiff : r ∈ filter_postal_codes postal_code_data ledger state_filter ↔
      r ∈ postal_code_data ∧
        r.ID ∉ ledger.map (fun row => row.ZipCode) ∧
        r.RG_NAME ∈ active_state_filter state_filter := by
    unfold filter_postal_codes
    simp [List.mem_filter, List.elem_iff]
  exact ⟨hiff, rfl, fun hid hmem => ((hiff.mp hmem).2.1 hid)⟩

theorem claim_C2_witness :
    opelikaDetails.ID ∈ ([row36804].map (fun row => row.ZipCode)) ∧
    opelikaDetails ∉ filter_postal_codes [opelikaDetails] [row36804] Option.none :=
  ⟨by decide,
   (claim_C2 [opelikaDetails] [row36804] Option.none opelikaDetails).2.2 (by decide)⟩

/-- C3: an HTTP 4xx outcome is terminal: `download_data` returns the
`{'errors': None}` payload at once, the result does not depend on any
later attempt outcome (no retry), and the appended record has both flags
No and every brand-list column empty. -/
theorem claim_C3 (outcomes : Nat → FetchOutcome) (s : Nat)
    (index : List (String × String)) (details : PostalCodeRecord)
    (ledger : List OutputRecord)
    (hs : 400 ≤ s) (hs2 : s < 500) (h0 : outcomes 0 = FetchOutcome.httpError s) :
    download_data outcomes = some errorsPayload ∧
    (∀ outcomes2 : Nat → FetchOutcome, outcomes2 0 = FetchOutcome.httpError s →
      download_data outcomes2 = some errorsPayload) ∧
    process_postal_code index details outcomes ledger =
      ledger ++ [transform_data index errorsPayload details] ∧
    (transform_data index errorsPayload details).Delivery = "No" ∧
    (transform_data index errorsPayload details).Pickup = "No" ∧
    (transform_data index errorsPayload details).DeliveryGrocery = [] ∧
    (transform_data index errorsPayload details).DeliveryRestaurants = [] ∧
    (transform_data index errorsPayload details).DeliveryAll = [] ∧
    (transform_data index errorsPayload details).PickupGrocery = [] ∧
    (transform_data index errorsPayload details).PickupRestaurants = [] ∧
    (transform_data index errorsPayload details).PickupAll = [] := by
  have hc : isClientError s = true := by
    simp [isClientError]
    omega
  have hdl : download_data outcomes = some errorsPayload :=
    download_go_client outcomes 0 max_retries s h0 hc
  refine ⟨hdl, fun o2 h2 => download_go_client o2 0 max_retries s h2 hc, ?_,
    rfl, rfl, rfl, rfl, rfl, rfl, rfl, rfl⟩
  exact process_of_download_truthy index details outcomes ledger errorsPayload hdl rfl

theorem claim_C3_witness :
    download_data (fun _ => FetchOutcome.httpError 400) = some errorsPayload ∧
    process_postal_code [] opelikaDetails (fun _ => FetchOutcome.httpError 400) [] =
      [transform_data [] errorsPayload opelikaDetails] ∧
    (transform_data [] errorsPayload opelikaDetails).Delivery = "No" :=
  (fun h => ⟨h.1, h.2.2.1, h.2.2.2.1⟩)
    (claim_C3 (fun _ => FetchOutcome.httpError 400) 400 [] opelikaDetails []
      (by omega) (by omega) rfl)

/-- C4 counterexample: a payload with `PICKUP` truthy and no
`storeDetails` yields Pickup = Yes with both pickup brand-list columns
empty, refuting the only-if direction of the claimed equivalence. -/
theorem claim_C4_counterexample :
    (transform_data [] pickupOnlyPayload opelikaDetails).Pickup = "Yes" ∧
    (transform_data [] pickupOnlyPayload opelikaDetails).PickupGrocery = [] ∧
    (transform_data [] pickupOnlyPayload opelikaDetails).PickupAll = [] :=
  ⟨rfl, rfl, rfl⟩

/-- C4 (amended): a flag is Yes exactly when the corresponding modality
key is present and truthy; non-empty brand-list columns occur only under
a Yes flag (the converse can fail: a Yes flag with empty lists); and
when `DELIVERY` is absent or empty the Delivery flag is No and both
delivery brand-list columns are empty. -/
theorem claim_C4 (index : List (String × String)) (payload : PyVal)
    (details : PostalCodeRecord) :
    ((transform_data index payload details).Delivery = "Yes" ↔
      deliveryTruthy payload = true) ∧
    ((transform_data index payload details).Pickup = "Yes" ↔
      pickupTruthy payload = true) ∧
    ((transform_data index payload details).DeliveryGrocery ≠ [] →
      (transform_data index payload details).Delivery = "Yes") ∧
    ((transform_data index payload details).DeliveryAll ≠ [] →
      (transform_data index payload details).Delivery = "Yes") ∧
    ((transform_data index payload details).PickupGrocery ≠ [] →
      (transform_data index payload details).Pickup = "Yes") ∧
    ((transform_data index payload details).PickupAll ≠ [] →
      (transform_data index payload details).Pickup = "Yes") ∧
    (deliveryTruthy payload = false →
      (transform_data index payload details).Delivery = "No" ∧
      (transform_data index payload details).DeliveryGrocery = [] ∧
      (transform_data index payload details).DeliveryAll = []) := by
  simp only [transform_data_eq]
  by_cases hd : deliveryTruthy payload <;> by_cases hp : pickupTruthy payload <;>
    simp [hd, hp]

theorem claim_C4_witness :
    (transform_data [] pickupOnlyPayload opelikaDetails).Delivery = "No" ∧
    (transform_data [] pickupOnlyPayload opelikaDetails).DeliveryGrocery = [] ∧
    (transform_data [] pickupOnlyPayload opelikaDetails).DeliveryAll = [] :=
  (claim_C4 [] pickupOnlyPayload opelikaDetails).2.2.2.2.2.2 rfl

/-- C5: the Opelika 36804 scenario produces exactly the expected row
`Kroger, Opelika, AL, 36804, No, [], [], [], Yes, [Kroger], [], [Kroger]`. -/
theorem claim_C5 :
    transform_data c5Index c5Payload opelikaDetails =
      { Ecommerce := "Kroger", CityName := "Opelika", StateAbbrev := "AL",
        ZipCode := 36804, Delivery := "No", DeliveryGrocery := [],
        DeliveryRestaurants := [], DeliveryAll := [], Pickup := "Yes",
        PickupGrocery := ["Kroger"], PickupRestaurants := [],
        PickupAll := ["Kroger"] } := by
  decide

/-- The two store entries of the C6 witness scenario; their distinct
location ids both resolve to the brand `Kroger`. -/
def dupStore1 : PyVal := PyVal.dict [("locationId", PyVal.str "01234")]

def dupStore2 : PyVal := PyVal.dict [("locationId", PyVal.str "99990")]

def dupStores : List PyVal := [dupStore1, dupStore2, dupStore1]

def dupMo : PyVal :=
  PyVal.dict [("PICKUP", PyVal.bool true),
              ("storeDetails", PyVal.list dupStores)]

def dupPayload : PyVal :=
  PyVal.dict [("data", PyVal.dict [("modalityOptions", dupMo)])]

def dupIndex : List (String × String) := [("0-1234", "Kroger"), ("99990", "Kroger")]

/-- C6: when `PICKUP` is truthy and some store entry resolves to brand
`b`, the record lists `b` exactly once in PickupGrocery and once in
PickupAll, the two columns are identical, and the list is the
first-occurrence deduplication (order preserved, duplicates dropped) of
the brands of the resolving location ids. -/
theorem claim_C6 (index : List (String × String)) (payload : PyVal)
    (details : PostalCodeRecord) (mo : PyVal) (stores : List PyVal)
    (b : String)
    (hmo : modality_options_of payload = some mo)
    (hp : optTruthy (mo.get? "PICKUP") = true)
    (hsd : mo.get? "storeDetails" = some (PyVal.list stores))
    (hb : ∃ st ∈ stores, ∃ store_id,
      (st.get? "locationId").bind PyVal.asStr = some store_id ∧
      resolve index store_id = some b) :
    (transform_data index payload details).PickupGrocery.count b = 1 ∧
    (transform_data index payload details).PickupAll.count b = 1 ∧
    (transform_data index payload details).PickupGrocery =
      (transform_data index payload details).PickupAll ∧
    (transform_data index payload details).PickupGrocery =
      dedupFirst ((pickup_store_ids mo).filterMap (resolve index)) := by
  have hpt : pickupTruthy payload = true := by
    unfold pickupTruthy
    rw [hmo]
    exact hp
  have hgr : (transform_data index payload details).PickupGrocery =
      dedupFirst ((pickup_store_ids mo).filterMap (resolve index)) := by
    rw [transform_data_eq]
    simp [hpt, pickup_brands, hmo, get_store_brands_pickup]
  have hal : (transform_data index payload details).PickupAll =
      dedupFirst ((pickup_store_ids mo).filterMap (resolve index)) := by
    rw [transform_data_eq]
    simp [hpt, pickup_brands, hmo, get_store_brands_pickup]
  have hmem : b ∈ (pickup_store_ids mo).filterMap (resolve index) := by
    rw [List.mem_filterMap]
    obtain ⟨st, hst, store_id, hid, hres⟩ := hb
    refine ⟨store_id, ?_, hres⟩
    unfold pickup_store_ids
    rw [hsd]
    rw [List.mem_filterMap]
    exact ⟨st, hst, hid⟩
  have hcount : (dedupFirst ((pickup_store_ids mo).filterMap (resolve index))).count b = 1 :=
    List.count_eq_one_of_mem (nodup_dedupFirst _) ((mem_dedupFirst _ _).mpr hmem)
  refine ⟨?_, ?_, ?_, hgr⟩
  · rw [hgr]; exact hcount
  · rw [hal]; exact hcount
  · rw [hgr, hal]

theorem claim_C6_witness :
    (transform_data dupIndex dupPayload opelikaDetails).PickupGrocery.count "Kroger" = 1 ∧
    (transform_data dupIndex dupPayload opelikaDetails).PickupAll.count "Kroger" = 1 :=
  (fun h => ⟨h.1, h.2.1⟩)
    (claim_C6 dupIndex dupPayload opelikaDetails dupMo dupStores "Kroger"
      rfl rfl rfl ⟨dupStore1, List.Mem.head _, "01234", rfl, rfl⟩)

/-- C7 counterexample: postal code 999 has fewer than 5 digits, yet
`postal_code_formatter` returns the 3-character string `999`, not a
5-character zero-padded one: only the 4-digit case is padded. -/
theorem claim_C7_counterexample :
    (toString (999 : Nat)).length < 5 ∧
    postal_code_formatter 999 = "999" ∧
    (postal_code_formatter 999).length = 3 := by
  refine ⟨by decide, by decide, by decide⟩

/-- C7 (amended): a postal code whose decimal representation has exactly
4 digits is returned left-padded with one zero to exactly 5 characters;
every other length is returned unchanged (in particular codes with
fewer than 4 digits are NOT padded). -/
theorem claim_C7 (code : Nat) :
    ((toString code).length = 4 →
      postal_code_formatter code = "0" ++ toString code ∧
      (postal_code_formatter code).length = 5) ∧
    ((toString code).length ≠ 4 →
      postal_code_formatter code = toString code) := by
  constructor
  · intro h
    unfold postal_code_formatter
    rw [if_pos h]
    refine ⟨rfl, ?_⟩
    rw [String.length_append, h]
    rfl

  · intro h
    unfold postal_code_formatter
    rw [if_neg h]

theorem claim_C7_witness :
    (toString (6804 : Nat)).length = 4 ∧
    postal_code_formatter 6804 = "0" ++ toString 6804 ∧
    (postal_code_formatter 6804).length = 5 :=
  ⟨by decide, (claim_C7 6804).1 (by decide)⟩

/-- C8: in every record produced by `transform_data` the two delivery
brand-list columns are identical, the two pickup brand-list columns are
identical, and both restaurant columns are empty. -/
theorem claim_C8 (index : List (String × String)) (payload : PyVal)
    (details : PostalCodeRecord) :
    (transform_data index payload details).DeliveryGrocery =
      (transform_data index payload details).DeliveryAll ∧
    (transform_data index payload details).PickupGrocery =
      (transform_data index payload details).PickupAll ∧
    (transform_data index payload details).DeliveryRestaurants = [] ∧
    (transform_data index payload details).PickupRestaurants = [] := by
  simp only [transform_data_eq]
  exact ⟨trivial, trivial, trivial, trivial⟩

/-- C9: the spec-modelled Jaccard similarity of the BrandResolver fuzzy
fallback is symmetric, equals 1 on equal non-empty strings, and equals 0
on character-disjoint strings. -/
theorem claim_C9 (s1 s2 : String) :
    jaccard s1 s2 = jaccard s2 s1 ∧
    (s1 = s2 → s1 ≠ "" → jaccard s1 s2 = 1) ∧
    (charSet s1 ∩ charSet s2 = ∅ → jaccard s1 s2 = 0) := by
  refine ⟨?_, ?_, ?_⟩
  · unfold jaccard
    rw [Finset.inter_comm, Finset.union_comm]
  · intro heq hne
    subst heq
    unfold jaccard
    rw [Finset.inter_self, Finset.union_self]
    apply div_self
    have hchars : s1.toList ≠ [] := by
      intro hnil
      apply hne
      cases s1 with
      | mk data => simp [String.toList] at hnil; rw [hnil]
    have : (charSet s1).Nonempty := by
      unfold charSet
      cases hl : s1.toList with
      | nil => exact absurd hl hchars
      | cons c rest => exact ⟨c, by simp [hl]⟩
    have hpos : 0 < (charSet s1).card := Finset.card_pos.mpr this
    exact_mod_cast Nat.pos_iff_ne_zero.mp hpos
  · intro hdisj
    unfold jaccard
    rw [hdisj]
    simp

theorem claim_C9_witness :
    jaccard "ab" "ab" = 1 ∧ jaccard "ab" "cd" = 0 :=
  ⟨(claim_C9 "ab" "ab").2.1 rfl (by decide),
   (claim_C9 "ab" "cd").2.2 (by decide)⟩

/-- C10: `download_data` always returns either a payload or the no-data
value; a returned payload is either the 4xx `{'errors': None}` marker or
the parsed body of a successful attempt; and on the no-data value the
caller appends no row. -/
theorem claim_C10 (outcomes : Nat → FetchOutcome)
    (index : List (String × String)) (details : PostalCodeRecord)
    (ledger : List OutputRecord) :
    (download_data outcomes = Option.none →
      process_postal_code index details outcomes ledger = ledger) ∧
    (∀ d : PyVal, download_data outcomes = some d →
      d = errorsPayload ∨ ∃ i, outcomes i = FetchOutcome.success d) :=
  ⟨process_of_download_none index details outcomes ledger,
   fun d h => download_go_shape outcomes max_retries 0 d h⟩

theorem claim_C10_witness :
    process_postal_code [] opelikaDetails (fun _ => FetchOutcome.timeout) [] = [] :=
  (claim_C10 (fun _ => FetchOutcome.timeout) [] opelikaDetails []).1 rfl
